import Mathlib

/-!
Verification of the `erased` type-erasure primitives.

The repository provides three wrappers around an untyped, non-null,
address-sized handle (`NonNull<()>`):

* `ErasedBox`  (src/erased_box.rs)     — erases an owned `Box<T>`;
* `ErasedMut`  (src/erased_mut_ref.rs) — erases an exclusive borrow `&'a mut T`;
* `Erased`     (src/erased_ref.rs)     — erases a shared borrow `&'a T`.

Embedding choices:

* Concrete Rust types `T` are modelled by a closed universe `Ty` with a
  denotation `Ty.denote`; heterogeneity (different erased types in one
  collection) is then expressible and everything stays executable.
* Memory is an explicit list of typed cells; an address is a `Nat`, with `0`
  playing the role of the null pointer and address `a ≥ 1` referring to cell
  `a - 1`.
* A typed reference `&T` / `&mut T` is a `Ref t`: a wrapper around an address.
  A `Box<T>` is likewise a wrapper around the address of its allocation.
* The pointer reinterpretation performed at recovery time
  (`ptr.cast::<T>().as_ref()` etc.) is modelled by `Mem.readAs`, which
  succeeds exactly when the asserted type matches the cell's actual type;
  a mismatch — undefined behavior in the source — is modelled as `none`.
-/

namespace ErasedLib

/-- A closed universe of concrete Rust value types that can be erased.
`usize`/`u64` cover the integer types the crate's tests use, `str` covers
`&'static str` contents, `bool` is another base type, and `ref t` covers
reference-valued values such as the `&usize` stored in `lifetimed_test`. -/
inductive Ty : Type
  | usize
  | u64
  | bool
  | str
  | ref (t : Ty)
  deriving DecidableEq, Repr

/-- Denotation of the universe into Lean types. A reference value denotes
the address it points to. -/
@[reducible] def Ty.denote : Ty → Type
  | .usize => Nat
  | .u64 => Nat
  | .bool => Bool
  | .str => String
  | .ref _ => Nat

/-- One memory cell: a value together with its actual (runtime-erased) type. -/
structure Cell where
  ty : Ty
  val : ty.denote

/-- Memory: a list of typed cells. Address `a ≥ 1` refers to cell `a - 1`;
address `0` is the null pointer and never refers to a cell. -/
structure Mem where
  cells : List Cell

/-- Read the raw cell at an address; `none` for the null address or an
unallocated address. -/
def Mem.read (m : Mem) (a : Nat) : Option Cell :=
  if a = 0 then none else m.cells[a - 1]?

/-- Reinterpret the cell at address `a` at type `t`
(the model of `ptr.cast::<T>().as_ref()` / `as_mut()`): defined exactly when
the asserted type matches the type the cell was written with; a mismatch is
undefined behavior in the source and is modelled as `none`. -/
def Mem.readAs (m : Mem) (t : Ty) (a : Nat) : Option t.denote :=
  match m.read a with
  | some c => if h : c.ty = t then some (h ▸ c.val) else none
  | none => none

/-- Store a cell at an address (the model of a typed store `*p = v`).
Writing through the null address is never performed by valid code and is
modelled as a no-op. -/
def Mem.write (m : Mem) (a : Nat) (c : Cell) : Mem :=
  if a = 0 then m else ⟨m.cells.set (a - 1) c⟩

/-- A typed reference `&'a T` / `&'a mut T`: an address, with the referent
type tracked statically (as Rust does). Lifetimes are erased by the
embedding. -/
structure Ref (t : Ty) where
  addr : Nat
  deriving DecidableEq, Repr

/-- Read the referent (`*r`). -/
def Ref.read {t : Ty} (r : Ref t) (m : Mem) : Option t.denote :=
  m.readAs t r.addr

/-- Write through the reference (`*r = v`), a typed store. -/
def Ref.write {t : Ty} (r : Ref t) (m : Mem) (v : t.denote) : Mem :=
  m.write r.addr ⟨t, v⟩

/-- A `Box<T>`: an owning pointer to a heap allocation of a `T`. -/
structure Box (t : Ty) where
  ptr : Nat
  deriving DecidableEq, Repr

/-- `Box::leak`: turn the box into a (mutable) reference to its allocation;
the address is unchanged. -/
def Box.leak {t : Ty} (b : Box t) : Ref t :=
  ⟨b.ptr⟩

/-- `Box::from_raw`: reassemble a box from a raw pointer. -/
def Box.from_raw (t : Ty) (a : Nat) : Box t :=
  ⟨a⟩

/-- Dereference the box (`*b`). -/
def Box.deref {t : Ty} (b : Box t) (m : Mem) : Option t.denote :=
  m.readAs t b.ptr

/-! ## `ErasedBox` (src/erased_box.rs) -/

/-- `ErasedBox { ptr: NonNull<()> }`: a box with an erased type.
The source derives only `Debug` for it (no `Copy`/`Clone`), and it has no
`Drop` implementation: dropping it leaks the allocation. -/
structure ErasedBox where
  ptr : Nat
  deriving DecidableEq, Repr

/-- `ErasedBox::new<T>(t: Box<T>)`: `Self { ptr: NonNull::from(Box::leak(t)).cast() }`. -/
def ErasedBox.new {t : Ty} (b : Box t) : ErasedBox :=
  ⟨(Box.leak b).addr⟩

/-- `ErasedBox::into_inner<T>(self) -> Box<T>`:
`Box::from_raw(self.ptr.cast::<T>().as_mut())`. -/
def ErasedBox.into_inner (t : Ty) (e : ErasedBox) : Box t :=
  Box.from_raw t e.ptr

/-- `ErasedBox::get_ref<T>(&self) -> &T`: `self.ptr.cast::<T>().as_ref()`. -/
def ErasedBox.get_ref (t : Ty) (e : ErasedBox) : Ref t :=
  ⟨e.ptr⟩

/-- `ErasedBox::get_mut<T>(&mut self) -> &mut T`: `self.ptr.cast::<T>().as_mut()`. -/
def ErasedBox.get_mut (t : Ty) (e : ErasedBox) : Ref t :=
  ⟨e.ptr⟩

/-- `impl<T> From<Box<T>> for ErasedBox`: `fn from(value: Box<T>) -> Self { Self::new(value) }`. -/
def ErasedBox.fromBox {t : Ty} (value : Box t) : ErasedBox :=
  ErasedBox.new value

/-- `ErasedBox` has no `Drop` implementation in the source and its only field
is a `NonNull<()>` (whose drop is trivial), so dropping an `ErasedBox` runs no
code: the memory is untouched and the allocation is leaked. -/
def ErasedBox.drop (m : Mem) (_e : ErasedBox) : Mem :=
  m

/-- `#[derive(Debug)]` only: the source derives neither `Copy` nor `Clone`
for `ErasedBox`. -/
def ErasedBox.derivesCopyClone : Bool :=
  false

/-! ## `ErasedMut` (src/erased_mut_ref.rs) -/

/-- `ErasedMut<'a> { ptr: NonNull<()>, phantom: PhantomData<&'a ()> }`: an
erased mutable reference. The source derives only `Debug` (no `Copy`/`Clone`).
The phantom lifetime has no runtime content and is dropped by the embedding. -/
structure ErasedMut where
  ptr : Nat
  deriving DecidableEq, Repr

/-- `ErasedMut::new<T>(t: &'a mut T)`:
`Self { ptr: NonNull::from(t).cast(), phantom: PhantomData }`. -/
def ErasedMut.new {t : Ty} (r : Ref t) : ErasedMut :=
  ⟨r.addr⟩

/-- `ErasedMut::get<T>(&mut self) -> &'a mut T`: `self.ptr.cast::<T>().as_mut()`. -/
def ErasedMut.get (t : Ty) (e : ErasedMut) : Ref t :=
  ⟨e.ptr⟩

/-- `ErasedMut::get_ref<T>(&self) -> &'a T`: `self.ptr.cast::<T>().as_ref()`. -/
def ErasedMut.get_ref (t : Ty) (e : ErasedMut) : Ref t :=
  ⟨e.ptr⟩

/-- `impl<'a, T> From<&'a mut T> for ErasedMut<'a>`:
`fn from(value: &'a mut T) -> Self { Self::new(value) }`. -/
def ErasedMut.fromMut {t : Ty} (value : Ref t) : ErasedMut :=
  ErasedMut.new value

/-- `#[derive(Debug)]` only: the source derives neither `Copy` nor `Clone`
for `ErasedMut`. -/
def ErasedMut.derivesCopyClone : Bool :=
  false

/-! ## `Erased` (src/erased_ref.rs) -/

/-- `Erased<'a> { ptr: NonNull<()>, phantom: PhantomData<&'a ()> }`: an erased
shared reference. The source derives `Copy, Clone, Debug` for it. -/
structure Erased where
  ptr : Nat
  deriving DecidableEq, Repr

/-- `Erased::new<T>(t: &'a T)`:
`Self { ptr: NonNull::from(t).cast(), phantom: PhantomData }`. -/
def Erased.new {t : Ty} (r : Ref t) : Erased :=
  ⟨r.addr⟩

/-- `Erased::get<T>(&self) -> &'a T`: `self.ptr.cast::<T>().as_ref()`. -/
def Erased.get (t : Ty) (e : Erased) : Ref t :=
  ⟨e.ptr⟩

/-- `impl<'a, T> From<&'a T> for Erased<'a>`:
`fn from(value: &'a T) -> Self { Self::new(value) }`. -/
def Erased.fromRef {t : Ty} (value : Ref t) : Erased :=
  Erased.new value

/-- `#[derive(Copy, Clone, Debug)]`: the derived `Clone` of a `Copy` struct is
a bit-copy of the handle. -/
def Erased.clone (e : Erased) : Erased :=
  e

/-- `#[derive(Copy, Clone, Debug)]` on `Erased` in the source. -/
def Erased.derivesCopyClone : Bool :=
  true

/-- Erase every element of a heterogeneously-typed list of references
(the `Vec<Erased>` of `heterogeneous_test`). -/
def eraseAll (xs : List ((t : Ty) × Ref t)) : List Erased :=
  xs.map (fun p => Erased.new p.2)

/-! ## Helper lemmas -/

/-- A successful typed read implies the address is non-null. -/
theorem Mem.ne_zero_of_readAs_some (m : Mem) (t : Ty) (a : Nat) (v : t.denote)
    (h : m.readAs t a = some v) : a ≠ 0 := by
  intro ha
  rw [ha] at h
  simp [Mem.readAs, Mem.read] at h

/-- A successful typed read implies the address is in bounds. -/
theorem Mem.lt_of_readAs_some (m : Mem) (t : Ty) (a : Nat) (v : t.denote)
    (h : m.readAs t a = some v) : a - 1 < m.cells.length := by
  have h0 : a ≠ 0 := m.ne_zero_of_readAs_some t a v h
  unfold Mem.readAs Mem.read at h
  simp only [h0, if_false] at h
  cases hget : m.cells[a - 1]? with
  | none => rw [hget] at h; simp at h
  | some c => exact (List.getElem?_eq_some_iff.mp hget).1

/-- Writing a cell of type `t` at an address where a typed read at `t`
succeeded, then reading at `t` again, returns the written value. -/
theorem Mem.readAs_write_self (m : Mem) (t : Ty) (a : Nat) (v w : t.denote)
    (h : m.readAs t a = some v) :
    (m.write a (Cell.mk t w)).readAs t a = some w := by
  have h0 : a ≠ 0 := m.ne_zero_of_readAs_some t a v h
  have hlt : a - 1 < m.cells.length := m.lt_of_readAs_some t a v h
  unfold Mem.write
  simp only [h0, if_false]
  unfold Mem.readAs Mem.read
  simp only [h0, if_false]
  rw [List.getElem?_set_self hlt]
  simp

/-! ## Claims -/

/-- C1: for every value `v` of type `T`, erasing an owned box of `v` with
`ErasedBox::new` and then recovering it with `into_inner::<T>` at the matching
type yields a box whose contents are observably equal to `v`. -/
theorem c1_erasedBox_owned_roundtrip (m : Mem) (t : Ty) (b : Box t) (v : t.denote)
    (h : b.deref m = some v) :
    (ErasedBox.into_inner t (ErasedBox.new b)).deref m = some v :=
  h

/-- Witness for C1: a box of `5usize` at address 1 round-trips. -/
theorem c1_witness :
    (ErasedBox.into_inner Ty.usize
        (ErasedBox.new (Box.mk 1 : Box Ty.usize))).deref
      (Mem.mk [Cell.mk Ty.usize (5 : Nat)]) = some 5 :=
  c1_erasedBox_owned_roundtrip _ _ _ _ (by decide)

/-- C2: a write through the exclusive typed view `ErasedMut::get::<T>` of an
erased mutable reference is observable both through the shared typed view
`ErasedMut::get_ref::<T>` on the same component and through the original
reference after the component is discarded. -/
theorem c2_erasedMut_write_observable (m : Mem) (t : Ty) (r : Ref t)
    (v w : t.denote) (h : r.read m = some v) :
    ((ErasedMut.get_ref t (ErasedMut.new r)).read
        ((ErasedMut.get t (ErasedMut.new r)).write m w) = some w)
    ∧ r.read ((ErasedMut.get t (ErasedMut.new r)).write m w) = some w := by
  have hw : (m.write r.addr (Cell.mk t w)).readAs t r.addr = some w :=
    Mem.readAs_write_self m t r.addr v w h
  exact ⟨hw, hw⟩

/-- Witness for C2: write `42` through the exclusive view of an erased
`&mut 5usize`; both the shared view and the original reference read `42`. -/
theorem c2_witness :
    ((ErasedMut.get_ref Ty.usize (ErasedMut.new (Ref.mk 1 : Ref Ty.usize))).read
        ((ErasedMut.get Ty.usize (ErasedMut.new (Ref.mk 1 : Ref Ty.usize))).write
          (Mem.mk [Cell.mk Ty.usize (5 : Nat)]) 42) = some 42)
    ∧ (Ref.mk 1 : Ref Ty.usize).read
        ((ErasedMut.get Ty.usize (ErasedMut.new (Ref.mk 1 : Ref Ty.usize))).write
          (Mem.mk [Cell.mk Ty.usize (5 : Nat)]) 42) = some 42 :=
  c2_erasedMut_write_observable _ _ _ 5 _ (by decide)

/-- C3: erasing a shared borrow with `Erased::new` and recovering it with
`get::<T>` at the matching type yields the original reference back (hence a
reference comparing equal to it: both read the same value in every memory). -/
theorem c3_erased_shared_roundtrip (t : Ty) (r : Ref t) (m : Mem) :
    Erased.get t (Erased.new r) = r
    ∧ (Erased.get t (Erased.new r)).read m = r.read m :=
  ⟨rfl, rfl⟩

/-- C4: in a collection of erased shared references built from values of
different concrete types, each element recovered independently with its own
original type yields the reference it was created from. -/
theorem c4_heterogeneous_collection (xs : List ((t : Ty) × Ref t)) (i : Nat)
    (h : i < xs.length) (h2 : i < (eraseAll xs).length) :
    Erased.get (xs.get ⟨i, h⟩).1 ((eraseAll xs).get ⟨i, h2⟩) = (xs.get ⟨i, h⟩).2 := by
  simp [eraseAll, Erased.get, Erased.new]

/-- Witness for C4: the two-element heterogeneous collection of the source's
`heterogeneous_test` (a `u64` and a `&'static str`), recovering element 1. -/
theorem c4_witness :
    Erased.get Ty.str
        ((eraseAll [⟨Ty.u64, Ref.mk 1⟩, ⟨Ty.str, Ref.mk 2⟩]).get ⟨1, by decide⟩)
      = Ref.mk 2 :=
  c4_heterogeneous_collection [⟨Ty.u64, Ref.mk 1⟩, ⟨Ty.str, Ref.mk 2⟩] 1
    (by decide) (by decide)

/-- C5: duplicating an erased shared reference (the derived `Clone`
of the `Copy` type `Erased` is a bit-copy) and reading through both copies
yields identical values; and the source derives no `Copy`/`Clone` duplication
for `ErasedMut` or `ErasedBox`. -/
theorem c5_duplication (e : Erased) (m : Mem) (t : Ty) :
    Erased.clone e = e
    ∧ ((Erased.clone e).get t).read m = (e.get t).read m
    ∧ Erased.derivesCopyClone = true
    ∧ ErasedMut.derivesCopyClone = false
    ∧ ErasedBox.derivesCopyClone = false :=
  ⟨rfl, rfl, rfl, rfl, rfl⟩

/-- C6: dropping an `ErasedBox` without calling `into_inner` is not an error:
there is no `Drop` impl in the source, so the drop runs no code, panics
nowhere, and never reclaims the allocation — memory is entirely unchanged,
the cell behind the handle included. -/
theorem c6_drop_leaks (m : Mem) (e : ErasedBox) :
    ErasedBox.drop m e = m
    ∧ (∀ u : Ty, (ErasedBox.drop m e).readAs u e.ptr = m.readAs u e.ptr) :=
  ⟨rfl, fun _ => rfl⟩

/-- C7: construction never fails — each constructor is a total function equal
to a plain pointer move — and no recovery/view operation contains a
runtime-checked type branch: the handle each one returns is independent of
the type argument supplied. -/
theorem c7_total_construction_no_type_check :
    (∀ (t : Ty) (b : Box t), ErasedBox.new b = ErasedBox.mk b.ptr)
    ∧ (∀ (t : Ty) (r : Ref t), ErasedMut.new r = ErasedMut.mk r.addr)
    ∧ (∀ (t : Ty) (r : Ref t), Erased.new r = Erased.mk r.addr)
    ∧ (∀ (e : ErasedBox) (t1 t2 : Ty),
        (ErasedBox.into_inner t1 e).ptr = (ErasedBox.into_inner t2 e).ptr)
    ∧ (∀ (e : ErasedBox) (t1 t2 : Ty),
        (ErasedBox.get_ref t1 e).addr = (ErasedBox.get_ref t2 e).addr)
    ∧ (∀ (e : ErasedBox) (t1 t2 : Ty),
        (ErasedBox.get_mut t1 e).addr = (ErasedBox.get_mut t2 e).addr)
    ∧ (∀ (e : ErasedMut) (t1 t2 : Ty),
        (ErasedMut.get t1 e).addr = (ErasedMut.get t2 e).addr)
    ∧ (∀ (e : ErasedMut) (t1 t2 : Ty),
        (ErasedMut.get_ref t1 e).addr = (ErasedMut.get_ref t2 e).addr)
    ∧ (∀ (e : Erased) (t1 t2 : Ty),
        (Erased.get t1 e).addr = (Erased.get t2 e).addr) := by
  refine ⟨?_, ?_, ?_, ?_, ?_, ?_, ?_, ?_, ?_⟩ <;> intros <;> rfl

/-- C8: the borrowing views `get_ref`/`get_mut` on `ErasedBox` produce typed
views of the same handle without transferring ownership: the container's
handle is unchanged, so `into_inner` still recovers — the original value if
nothing was written, and the current value after a write through the
exclusive view. -/
theorem c8_views_preserve_ownership (m : Mem) (t : Ty) (e : ErasedBox)
    (v w : t.denote) (h : m.readAs t e.ptr = some v) :
    ErasedBox.get_ref t e = Ref.mk e.ptr
    ∧ ErasedBox.get_mut t e = Ref.mk e.ptr
    ∧ (ErasedBox.into_inner t e).deref m = some v
    ∧ (ErasedBox.into_inner t e).deref ((ErasedBox.get_mut t e).write m w) = some w :=
  ⟨rfl, rfl, h, Mem.readAs_write_self m t e.ptr v w h⟩

/-- Witness for C8: the source's `ref_test` scenario — view `5usize`, write
`42` through the exclusive view, then `into_inner` recovers `42`. -/
theorem c8_witness :
    ErasedBox.get_ref Ty.usize (ErasedBox.mk 1) = Ref.mk 1
    ∧ ErasedBox.get_mut Ty.usize (ErasedBox.mk 1) = Ref.mk 1
    ∧ (ErasedBox.into_inner Ty.usize (ErasedBox.mk 1)).deref
        (Mem.mk [Cell.mk Ty.usize (5 : Nat)]) = some 5
    ∧ (ErasedBox.into_inner Ty.usize (ErasedBox.mk 1)).deref
        ((ErasedBox.get_mut Ty.usize (ErasedBox.mk 1)).write
          (Mem.mk [Cell.mk Ty.usize (5 : Nat)]) 42) = some 42 :=
  c8_views_preserve_ownership (Mem.mk [Cell.mk Ty.usize (5 : Nat)]) Ty.usize
    (ErasedBox.mk 1) 5 42 (by decide)

/-- C9: the non-null-handle invariant: each constructor, given the non-null
pointer underlying its input box or reference, stores a non-null handle, and
every recovery/view operation on a component with a non-null handle yields a
non-null pointer (and, being pure, leaves the handle itself untouched). -/
theorem c9_nonnull_invariant (t : Ty) (b : Box t) (r : Ref t)
    (hb : b.ptr ≠ 0) (hr : r.addr ≠ 0) :
    (ErasedBox.new b).ptr ≠ 0
    ∧ (ErasedMut.new r).ptr ≠ 0
    ∧ (Erased.new r).ptr ≠ 0
    ∧ (∀ (e : ErasedBox) (u : Ty), e.ptr ≠ 0 →
        (ErasedBox.into_inner u e).ptr ≠ 0
        ∧ (ErasedBox.get_ref u e).addr ≠ 0
        ∧ (ErasedBox.get_mut u e).addr ≠ 0)
    ∧ (∀ (e : ErasedMut) (u : Ty), e.ptr ≠ 0 →
        (ErasedMut.get u e).addr ≠ 0 ∧ (ErasedMut.get_ref u e).addr ≠ 0)
    ∧ (∀ (e : Erased) (u : Ty), e.ptr ≠ 0 → (Erased.get u e).addr ≠ 0) :=
  ⟨hb, hr, hr, fun _ _ he => ⟨he, he, he⟩, fun _ _ he => ⟨he, he⟩, fun _ _ he => he⟩

/-- Witness for C9: the invariant at a box and a reference at address 1. -/
theorem c9_witness :
    (ErasedBox.new (Box.mk 1 : Box Ty.usize)).ptr ≠ 0
    ∧ (ErasedMut.new (Ref.mk 1 : Ref Ty.usize)).ptr ≠ 0
    ∧ (Erased.new (Ref.mk 1 : Ref Ty.usize)).ptr ≠ 0
    ∧ (∀ (e : ErasedBox) (u : Ty), e.ptr ≠ 0 →
        (ErasedBox.into_inner u e).ptr ≠ 0
        ∧ (ErasedBox.get_ref u e).addr ≠ 0
        ∧ (ErasedBox.get_mut u e).addr ≠ 0)
    ∧ (∀ (e : ErasedMut) (u : Ty), e.ptr ≠ 0 →
        (ErasedMut.get u e).addr ≠ 0 ∧ (ErasedMut.get_ref u e).addr ≠ 0)
    ∧ (∀ (e : Erased) (u : Ty), e.ptr ≠ 0 → (Erased.get u e).addr ≠ 0) :=
  c9_nonnull_invariant Ty.usize (Box.mk 1) (Ref.mk 1) (by decide) (by decide)

/-- C10: the `From` conversions coincide with the named constructors:
`ErasedBox::from` with `ErasedBox::new`, `ErasedMut::from` with
`ErasedMut::new`, and `Erased::from` with `Erased::new`, on every input. -/
theorem c10_from_eq_new :
    (∀ (t : Ty) (b : Box t), ErasedBox.fromBox b = ErasedBox.new b)
    ∧ (∀ (t : Ty) (r : Ref t), ErasedMut.fromMut r = ErasedMut.new r)
    ∧ (∀ (t : Ty) (r : Ref t), Erased.fromRef r = Erased.new r) := by
  refine ⟨?_, ?_, ?_⟩ <;> intros <;> rfl

end ErasedLib
